import Mathlib

/-!
Shallow embedding of the geo-compliance analysis engine
(`src/compliance_analyzer.py`) and proofs about its claims.

The embedding models:
- `rule_based_analysis` : the deterministic keyword classifier,
- `create_analysis_prompt` / `llm_analysis` : the model classifier, with the
  external text-completion service abstracted as a function returning
  `Except String String` (error cause, or reply text),
- `extractJsonSpan` / `parse_llm_response` : the response parser, with the
  JSON decoder (`json.loads` on objects) abstracted as a function returning
  `Option JsonDict`,
- `reconcile` / `analyze_feature` : the reconciliation step combining the
  two verdicts,
- `analyze_csv` : the batch entry point over an in-memory table (the CSV
  reader/writer itself is an external collaborator in the specification).
-/

namespace Compliance

/-- Verdict of the keyword classifier (`rule_based_analysis` result dict). -/
structure RuleVerdict where
  needs_compliance : Bool
  found_keywords : List (String × List String)
  confidence : String
deriving Repr, DecidableEq

/-- Verdict of the model classifier (`llm_analysis` / `_parse_llm_response`
result dict). Values are not coerced to the enumerated sets, so all fields
are plain strings / string lists. -/
structure ModelVerdict where
  needs_compliance : String
  reasoning : String
  related_regulations : List String
  confidence : String
deriving Repr, DecidableEq

/-- Final combined verdict (`analyze_feature` result dict). -/
structure FinalVerdict where
  title : String
  needs_compliance : String
  reasoning : String
  related_regulations : List String
  rule_based_keywords : List (String × List String)
  confidence : String
deriving Repr, DecidableEq

/-- The decoded JSON object, with one optional slot per key the parser
reads; `none` models a missing key, mirroring Python's `dict.get`. -/
structure JsonDict where
  needs_compliance : Option String
  reasoning : Option String
  related_regulations : Option (List String)
  confidence : Option String
deriving Repr, DecidableEq

/-- Python `str.lower()`, character by character (locale-unaware, as the
specification notes). Defined over the character list so that it computes
by kernel reduction. -/
def toLowerStr (s : String) : String :=
  ⟨s.data.map Char.toLower⟩

/-- Python `str.strip()`: remove whitespace from both ends. Defined over
the character list so that it computes by kernel reduction. -/
def stripStr (s : String) : String :=
  ⟨((s.data.dropWhile Char.isWhitespace).reverse.dropWhile Char.isWhitespace).reverse⟩

/-- Python `str.endswith(post)`. Defined over the character lists so that
it computes by kernel reduction. -/
def endsWithStr (s post : String) : Bool :=
  post.data.reverse.isPrefixOf s.data.reverse

/-- Python substring test `needle in hay` on character lists. -/
def listContainsSub (needle : List Char) : List Char → Bool
  | [] => needle.isEmpty
  | c :: cs => needle.isPrefixOf (c :: cs) || listContainsSub needle cs

/-- Python substring test `needle in hay` on strings. -/
def containsSubstr (hay needle : String) : Bool :=
  listContainsSub needle.data hay.data

/-- The fixed keyword taxonomy `self.compliance_keywords`, in insertion
order. -/
def compliance_keywords : List (String × List String) :=
  [("age_gate", ["age gate", "age verification", "age check", "under 18", "under 13", "minors"]),
   ("location_blocking", ["location-based blocking", "geo-blocking", "geographic restriction", "country-specific"]),
   ("data_localization", ["data localization", "data residency", "local data storage", "regional data"]),
   ("privacy", ["privacy policy", "data protection", "personal information", "user data"]),
   ("content_moderation", ["content moderation", "harmful content", "inappropriate content", "reporting"]),
   ("monetization", ["advertising", "monetization", "revenue", "sponsored content", "influencer"]),
   ("social_features", ["social media", "user-generated content", "comments", "sharing", "messaging"]),
   ("algorithm", ["recommendation algorithm", "content recommendation", "personalized content"]),
   ("live_streaming", ["live streaming", "live video", "broadcasting", "real-time content"]),
   ("ecommerce", ["shopping", "e-commerce", "purchases", "transactions", "payments"])]

/-- The four high-priority categories from `rule_based_analysis`. -/
def high_priority_categories : List String :=
  ["age_gate", "location_blocking", "data_localization", "content_moderation"]

/-- Keyword classifier, translated from
`ComplianceAnalyzer.rule_based_analysis`:
`combined_text = f"{title} {description} {documents}".lower()`, then keep
each category whose filtered keyword list is non-empty, then
`needs_compliance = any(cat in found_keywords for cat in
high_priority_categories)`. -/
def rule_based_analysis (title description documents : String) : RuleVerdict :=
  let combined_text := toLowerStr (title ++ " " ++ description ++ " " ++ documents)
  let found_keywords := compliance_keywords.filterMap (fun ck =>
    let found := ck.2.filter (fun kw => containsSubstr combined_text (toLowerStr kw))
    if found.isEmpty then none else some (ck.1, found))
  let needs_compliance := high_priority_categories.any
    (fun cat => found_keywords.any (fun p => p.1 == cat))
  { needs_compliance := needs_compliance,
    found_keywords := found_keywords,
    confidence := if needs_compliance then "high" else "low" }

/-- Python `repr` of a list of simple strings, inner part (no surrounding
brackets): elements quoted with single quotes, separated by comma-space. -/
def pyReprStrListInner : List String → String
  | [] => ""
  | [x] => "'" ++ x ++ "'"
  | x :: y :: ys => "'" ++ x ++ "', " ++ pyReprStrListInner (y :: ys)

/-- Python `repr`/`str` of a list of simple strings, e.g. `['a', 'b']`. -/
def pyReprStrList (xs : List String) : String :=
  "[" ++ pyReprStrListInner xs ++ "]"

/-- Python `repr` of a dict from strings to string lists, inner part. -/
def pyReprDictInner : List (String × List String) → String
  | [] => ""
  | [kv] => "'" ++ kv.1 ++ "': " ++ pyReprStrList kv.2
  | kv :: e :: es => "'" ++ kv.1 ++ "': " ++ pyReprStrList kv.2 ++ ", " ++ pyReprDictInner (e :: es)

/-- Python `repr`/`str` of a dict from strings to string lists, e.g.
`\x7b'age_gate': ['age gate']\x7d`. Faithful for the keys and phrases of the
fixed taxonomy (which contain no quotes or backslashes). -/
def pyReprDict (d : List (String × List String)) : String :=
  "\x7b" ++ pyReprDictInner d ++ "\x7d"

/-- The opening curly brace character. -/
def lbrace : Char := Char.ofNat 123

/-- The closing curly brace character. -/
def rbrace : Char := Char.ofNat 125

/-- Suffix of the list starting at its first opening brace, or `none`. -/
def fromFirstOpen : List Char → Option (List Char)
  | [] => none
  | c :: cs => if c = lbrace then some (c :: cs) else fromFirstOpen cs

/-- Suffix of the list starting at its first closing brace, or `none`. -/
def fromFirstClose : List Char → Option (List Char)
  | [] => none
  | c :: cs => if c = rbrace then some (c :: cs) else fromFirstClose cs

/-- The span matched by `re.search(r'\x7b.*\x7d', response, re.DOTALL)`:
from the first opening brace to the last closing brace after it (the regex
is greedy and `.` matches newlines), or `none` when there is no match. -/
def extractJsonSpan (s : String) : Option String :=
  match fromFirstOpen s.data with
  | none => none
  | some suff =>
    match fromFirstClose suff.reverse with
    | none => none
    | some revSpan => some ⟨revSpan.reverse⟩

/-- Response parser, translated from
`ComplianceAnalyzer._parse_llm_response`. The JSON decoder (`json.loads`
restricted to the object case, with the four `dict.get` lookups) is
abstracted as `decode`; `none` models a decode failure (the caught
exception branch). -/
def parse_llm_response (decode : String → Option JsonDict) (response : String) : ModelVerdict :=
  match extractJsonSpan response with
  | some span =>
    match decode span with
    | some parsed =>
      { needs_compliance := parsed.needs_compliance.getD "Needs Review",
        reasoning := parsed.reasoning.getD "No reasoning provided",
        related_regulations := parsed.related_regulations.getD [],
        confidence := parsed.confidence.getD "medium" }
    | none =>
      { needs_compliance := "Needs Review",
        reasoning := "Failed to parse response: " ++ response,
        related_regulations := [],
        confidence := "low" }
  | none =>
    { needs_compliance := "Needs Review",
      reasoning := response,
      related_regulations := [],
      confidence := "low" }

/-- Prompt builder, translated from
`ComplianceAnalyzer._create_analysis_prompt`. -/
def create_analysis_prompt (title description documents : String) : String :=
  "\nAnalyze the following feature to determine if it requires geo-specific compliance logic:\n\n"
  ++ "Title: " ++ title ++ "\n"
  ++ "Description: " ++ description ++ "\n"
  ++ "Additional Documents: " ++ (if documents.data.isEmpty then "None provided" else documents) ++ "\n\n"
  ++ "Please provide your analysis in the following JSON format:\n"
  ++ "\x7b\n"
  ++ "    \"needs_compliance\": \"Yes/No/Needs Review\",\n"
  ++ "    \"reasoning\": \"Clear explanation of your decision\",\n"
  ++ "    \"related_regulations\": [\"List of relevant regulations\"],\n"
  ++ "    \"confidence\": \"high/medium/low\"\n"
  ++ "\x7d\n\n"
  ++ "Consider the following regulations:\n"
  ++ "- DSA (Digital Services Act - EU)\n"
  ++ "- COPPA (Children's Online Privacy Protection Act - US)\n"
  ++ "- GDPR (General Data Protection Regulation - EU)\n"
  ++ "- California Protecting Our Kids Act\n"
  ++ "- Florida Online Protections for Minors\n"
  ++ "- Utah Social Media Regulation Act\n"
  ++ "- NCMEC reporting requirements\n"
  ++ "- CCPA (California Consumer Privacy Act)\n\n"
  ++ "Features that typically need geo-compliance logic include:\n"
  ++ "- Age verification or age-gating features\n"
  ++ "- Location-based content blocking or restrictions\n"
  ++ "- Data localization requirements\n"
  ++ "- Content moderation systems\n"
  ++ "- User-generated content platforms\n"
  ++ "- Advertising or monetization features\n"
  ++ "- Social media features\n"
  ++ "- Live streaming capabilities\n"
  ++ "- E-commerce or payment features\n\n"
  ++ "Respond only with the JSON analysis.\n"

/-- Model classifier, translated from `ComplianceAnalyzer.llm_analysis`.
The external text-completion call is abstracted as `svc`, taking the
rendered prompt and returning either the reply text or an error cause
(`str(e)` of the caught exception). -/
def llm_analysis (svc : String → Except String String)
    (decode : String → Option JsonDict)
    (title description documents : String) : ModelVerdict :=
  match svc (create_analysis_prompt title description documents) with
  | Except.ok content => parse_llm_response decode content
  | Except.error e =>
    { needs_compliance := "Needs Review",
      reasoning := "Analysis failed due to error: " ++ e,
      related_regulations := [],
      confidence := "low" }

/-- Reconciliation: the combining step of
`ComplianceAnalyzer.analyze_feature` (its last block), as a function of the
two verdicts. The override appends
`" (Overridden by rule-based analysis: found keywords <dict repr>)"`. -/
def reconcile (title : String) (rule_results : RuleVerdict)
    (llm_results : ModelVerdict) : FinalVerdict :=
  let final_result : FinalVerdict :=
    { title := title,
      needs_compliance := llm_results.needs_compliance,
      reasoning := llm_results.reasoning,
      related_regulations := llm_results.related_regulations,
      rule_based_keywords := rule_results.found_keywords,
      confidence := llm_results.confidence }
  if rule_results.needs_compliance
      && rule_results.confidence == "high"
      && llm_results.needs_compliance == "No" then
    { final_result with
      needs_compliance := "Yes",
      reasoning := final_result.reasoning
        ++ " (Overridden by rule-based analysis: found keywords "
        ++ pyReprDict rule_results.found_keywords ++ ")" }
  else
    final_result

/-- Single-feature analysis, translated from
`ComplianceAnalyzer.analyze_feature`. `extractPdf` abstracts the external
text-extraction collaborator (`extract_text_from_pdf`). -/
def analyze_feature (extractPdf : String → String)
    (svc : String → Except String String)
    (decode : String → Option JsonDict)
    (title description documents : String) : FinalVerdict :=
  let document_text :=
    if documents.data.isEmpty then ""
    else if endsWithStr (toLowerStr documents) ".pdf" then extractPdf documents
    else documents
  let rule_results := rule_based_analysis title description document_text
  let llm_results := llm_analysis svc decode title description document_text
  reconcile title rule_results llm_results

/-- A row of the input table: the `Title` and `Description` cells and the
optional `Documents` cell (`row.get('Documents', '')`, so `""` when the
column is absent). -/
structure Row where
  Title : String
  Description : String
  Documents : String
deriving Repr, DecidableEq

/-- The input table read by the tabular I/O collaborator: its column names
and its rows. -/
structure Table where
  columns : List String
  rows : List Row
deriving Repr, DecidableEq

/-- Batch entry point, translated from `ComplianceAnalyzer.analyze_csv`:
validate the required columns first (raising
`ValueError(f"Missing required columns: \x7bmissing_columns\x7d")`,
modelled as `Except.error`), then iterate the rows in order, trimming
title/description, skipping rows where either is empty, and analyzing the
rest. The CSV reading/writing itself is the external tabular I/O
collaborator. -/
def analyze_csv (extractPdf : String → String)
    (svc : String → Except String String)
    (decode : String → Option JsonDict)
    (df : Table) : Except String (List FinalVerdict) :=
  let required_columns := ["Title", "Description"]
  let missing_columns := required_columns.filter (fun c => !(df.columns.contains c))
  if !missing_columns.isEmpty then
    Except.error ("Missing required columns: " ++ pyReprStrList missing_columns)
  else
    Except.ok (df.rows.filterMap (fun row =>
      let title := stripStr row.Title
      let description := stripStr row.Description
      let documents := stripStr row.Documents
      if title.data.isEmpty || description.data.isEmpty then none
      else some (analyze_feature extractPdf svc decode title description documents)))

/-! Helper lemmas: occurrence of a string inside a rendered repr. We say
`x` occurs in `s` when `∃ a b, s = a ++ x ++ b`. -/

/-- Occurrence is preserved by appending on the left. -/
theorem occ_wrapL {s x : String} (p : String)
    (h : ∃ a b, s = a ++ x ++ b) : ∃ a b, p ++ s = a ++ x ++ b := by
  obtain ⟨a, b, rfl⟩ := h
  exact ⟨p ++ a, b, by simp [String.append_assoc]⟩

/-- Occurrence is preserved by appending on the right. -/
theorem occ_wrapR {s x : String} (q : String)
    (h : ∃ a b, s = a ++ x ++ b) : ∃ a b, s ++ q = a ++ x ++ b := by
  obtain ⟨a, b, rfl⟩ := h
  exact ⟨a, b ++ q, by simp [String.append_assoc]⟩

/-- Every member of a string list occurs in the rendered inner list. -/
theorem occ_pyReprStrListInner :
    ∀ (xs : List String) (x : String), x ∈ xs →
      ∃ a b, pyReprStrListInner xs = a ++ x ++ b
  | [], x, hx => absurd hx (List.not_mem_nil x)
  | [y], x, hx => by
    rw [List.mem_singleton.mp hx]
    exact ⟨"'", "'", by simp [pyReprStrListInner, String.append_assoc]⟩
  | y :: z :: zs, x, hx => by
    rcases List.mem_cons.mp hx with rfl | hx'
    · exact ⟨"'", "', " ++ pyReprStrListInner (z :: zs),
        by simp [pyReprStrListInner, String.append_assoc]⟩
    · have ih := occ_pyReprStrListInner (z :: zs) x hx'
      have := occ_wrapL ("'" ++ y ++ "', ") ih
      simpa [pyReprStrListInner, String.append_assoc] using this

/-- Every member of a string list occurs in its rendered Python repr. -/
theorem occ_pyReprStrList {xs : List String} {x : String} (hx : x ∈ xs) :
    ∃ a b, pyReprStrList xs = a ++ x ++ b :=
  occ_wrapR "]" (occ_wrapL "[" (occ_pyReprStrListInner xs x hx))

/-- Every phrase stored under some key of the dict occurs in the rendered
inner dict. -/
theorem occ_pyReprDictInner :
    ∀ (d : List (String × List String)) (cat : String) (l : List String)
      (x : String), (cat, l) ∈ d → x ∈ l →
      ∃ a b, pyReprDictInner d = a ++ x ++ b
  | [], _, _, x, hd, _ => absurd hd (List.not_mem_nil _)
  | [kv], cat, l, x, hd, hx => by
    obtain rfl : (cat, l) = kv := List.mem_singleton.mp hd
    have h1 := occ_wrapL ("'" ++ cat ++ "': ") (occ_pyReprStrList hx)
    simpa [pyReprDictInner, String.append_assoc] using h1
  | kv :: e :: es, cat, l, x, hd, hx => by
    rcases List.mem_cons.mp hd with rfl | hd'
    · have h1 := occ_wrapL ("'" ++ cat ++ "': ") (occ_pyReprStrList hx)
      have h2 := occ_wrapR (", " ++ pyReprDictInner (e :: es)) h1
      simpa [pyReprDictInner, String.append_assoc] using h2
    · have ih := occ_pyReprDictInner (e :: es) cat l x hd' hx
      have h2 := occ_wrapL ("'" ++ kv.1 ++ "': " ++ pyReprStrList kv.2 ++ ", ") ih
      simpa [pyReprDictInner, String.append_assoc] using h2

/-- Every phrase stored under some key of the dict occurs in its rendered
Python repr. -/
theorem occ_pyReprDict {d : List (String × List String)} {cat : String}
    {l : List String} {x : String} (hd : (cat, l) ∈ d) (hx : x ∈ l) :
    ∃ a b, pyReprDict d = a ++ x ++ b :=
  occ_wrapR "\x7d" (occ_wrapL "\x7b" (occ_pyReprDictInner d cat l x hd hx))

/-- Entries of `found_keywords` always carry a non-empty match list: the
classifier only inserts a category after filtering when the filtered list
is non-empty. -/
theorem found_keywords_ne_nil {title description documents cat : String}
    {l : List String}
    (h : (cat, l) ∈ (rule_based_analysis title description documents).found_keywords) :
    l ≠ [] := by
  simp only [rule_based_analysis, List.mem_filterMap] at h
  obtain ⟨ck, _, heq⟩ := h
  by_cases he : (ck.2.filter (fun kw =>
      containsSubstr (toLowerStr (title ++ " " ++ description ++ " " ++ documents))
        (toLowerStr kw))).isEmpty
  · simp [he] at heq
  · simp [he] at heq
    intro hnil
    rw [heq.2, hnil] at he
    simp at he

/-- C1: if the rule verdict needs compliance with high confidence and the
model verdict is "No", reconciliation forces the final verdict to "Yes" and
its reasoning is the model's reasoning with the appended override note,
which contains every matched keyword recorded in `found_keywords`. -/
theorem claim_C1_override (title : String) (rule : RuleVerdict)
    (model : ModelVerdict) (h1 : rule.needs_compliance = true)
    (h2 : rule.confidence = "high") (h3 : model.needs_compliance = "No") :
    (reconcile title rule model).needs_compliance = "Yes"
    ∧ (reconcile title rule model).reasoning
        = model.reasoning ++ " (Overridden by rule-based analysis: found keywords "
            ++ pyReprDict rule.found_keywords ++ ")"
    ∧ ∀ cat l kw, (cat, l) ∈ rule.found_keywords → kw ∈ l →
        ∃ a b, (reconcile title rule model).reasoning = a ++ kw ++ b := by
  have hcond : (rule.needs_compliance && rule.confidence == "high"
      && model.needs_compliance == "No") = true := by
    simp [h1, h2, h3]
  refine ⟨by simp [reconcile, hcond], by simp [reconcile, hcond], ?_⟩
  intro cat l kw hmem hkw
  have hocc := occ_pyReprDict hmem hkw
  have h4 := occ_wrapL
    (model.reasoning ++ " (Overridden by rule-based analysis: found keywords ") hocc
  have h5 := occ_wrapR ")" h4
  simpa [reconcile, hcond, String.append_assoc] using h5

/-- Witness for C1 at a concrete rule/model pair. -/
theorem claim_C1_override_witness :
    (reconcile "T" ⟨true, [("age_gate", ["age gate"])], "high"⟩
        ⟨"No", "model says no", [], "medium"⟩).needs_compliance = "Yes"
    ∧ (reconcile "T" ⟨true, [("age_gate", ["age gate"])], "high"⟩
        ⟨"No", "model says no", [], "medium"⟩).reasoning
      = "model says no (Overridden by rule-based analysis: found keywords \x7b'age_gate': ['age gate']\x7d)" := by
  have h := claim_C1_override "T" ⟨true, [("age_gate", ["age gate"])], "high"⟩
    ⟨"No", "model says no", [], "medium"⟩ rfl rfl rfl
  exact ⟨h.1, h.2.1.trans (by decide)⟩

/-- C2 counterexample: with rule confidence "high" but the model verdict
"Needs Review", the final verdict stays "Needs Review" — it is not forced
to "Yes", contradicting the claim that only a model "Yes" escapes the
override. -/
theorem claim_C2_counterexample :
    (RuleVerdict.mk true [("age_gate", ["age gate"])] "high").confidence = "high"
    ∧ (ModelVerdict.mk "Needs Review" "unsure" [] "medium").needs_compliance ≠ "Yes"
    ∧ (reconcile "T" (RuleVerdict.mk true [("age_gate", ["age gate"])] "high")
        (ModelVerdict.mk "Needs Review" "unsure" [] "medium")).needs_compliance ≠ "Yes" := by
  decide

/-- C2 amended: with rule needing compliance at high confidence, the final
verdict is "Yes" exactly when the model said "No"; for any other model
verdict (including "Needs Review") the final verdict is the model's own. -/
theorem claim_C2_amended (title : String) (rule : RuleVerdict)
    (model : ModelVerdict) (h1 : rule.needs_compliance = true)
    (h2 : rule.confidence = "high") :
    (reconcile title rule model).needs_compliance
      = if model.needs_compliance == "No" then "Yes"
        else model.needs_compliance := by
  by_cases h3 : model.needs_compliance = "No"
  · simp [reconcile, h1, h2, h3]
  · have : (model.needs_compliance == "No") = false := by
      simp [h3]
    simp [reconcile, this]

/-- Witness for the amended C2 at concrete inputs, on both sides of the
model's verdict. -/
theorem claim_C2_amended_witness :
    (reconcile "T" ⟨true, [("age_gate", ["age gate"])], "high"⟩
        ⟨"Needs Review", "unsure", [], "medium"⟩).needs_compliance
      = (if ("Needs Review" == "No") then "Yes" else "Needs Review") :=
  claim_C2_amended "T" ⟨true, [("age_gate", ["age gate"])], "high"⟩
    ⟨"Needs Review", "unsure", [], "medium"⟩ rfl rfl

/-- C5: when the rule verdict does not need compliance, reconciliation
returns the model's verdict verbatim in every model-derived field. -/
theorem claim_C5_model_verbatim (title : String) (rule : RuleVerdict)
    (model : ModelVerdict) (h : rule.needs_compliance = false) :
    reconcile title rule model
      = { title := title,
          needs_compliance := model.needs_compliance,
          reasoning := model.reasoning,
          related_regulations := model.related_regulations,
          rule_based_keywords := rule.found_keywords,
          confidence := model.confidence } := by
  simp [reconcile, h]

/-- Witness for C5 at a concrete rule/model pair. -/
theorem claim_C5_model_verbatim_witness :
    reconcile "Calc" ⟨false, [], "low"⟩ ⟨"No", "plain math", ["GDPR"], "high"⟩
      = { title := "Calc", needs_compliance := "No", reasoning := "plain math",
          related_regulations := ["GDPR"], rule_based_keywords := [],
          confidence := "high" } :=
  claim_C5_model_verbatim "Calc" ⟨false, [], "low"⟩
    ⟨"No", "plain math", ["GDPR"], "high"⟩ rfl

/-- C6: if the external text-completion call fails with cause `e`, the
model classifier returns exactly the "Needs Review" fallback verdict whose
reasoning wraps the cause. (The classifier consults the service exactly
once in its body, so no retry occurs.) -/
theorem claim_C6_llm_error (svc : String → Except String String)
    (decode : String → Option JsonDict) (title description documents e : String)
    (h : svc (create_analysis_prompt title description documents) = Except.error e) :
    llm_analysis svc decode title description documents
      = { needs_compliance := "Needs Review",
          reasoning := "Analysis failed due to error: " ++ e,
          related_regulations := [],
          confidence := "low" } := by
  simp [llm_analysis, h]

/-- Witness for C6 with a service that always fails. -/
theorem claim_C6_llm_error_witness :
    llm_analysis (fun _ => Except.error "Request timed out") (fun _ => none)
        "Live Chat" "real-time chat" ""
      = { needs_compliance := "Needs Review",
          reasoning := "Analysis failed due to error: Request timed out",
          related_regulations := [],
          confidence := "low" } :=
  claim_C6_llm_error (fun _ => Except.error "Request timed out") (fun _ => none)
    "Live Chat" "real-time chat" "" "Request timed out" rfl

/-- C7: when a JSON span is extracted and decodes, the parser reads the
four keys from the decoded object, substituting the documented default for
each missing key and passing present values through unchanged. -/
theorem claim_C7_defaults (decode : String → Option JsonDict)
    (response span : String) (parsed : JsonDict)
    (h1 : extractJsonSpan response = some span)
    (h2 : decode span = some parsed) :
    parse_llm_response decode response
      = { needs_compliance := parsed.needs_compliance.getD "Needs Review",
          reasoning := parsed.reasoning.getD "No reasoning provided",
          related_regulations := parsed.related_regulations.getD [],
          confidence := parsed.confidence.getD "medium" } := by
  simp [parse_llm_response, h1, h2]

/-- Witness for C7: a decode with a present out-of-taxonomy value and
missing keys, showing pass-through and defaults. -/
theorem claim_C7_defaults_witness :
    parse_llm_response
        (fun _ => some ⟨some "Maybe", none, none, some "very high"⟩) "x\x7bj\x7dy"
      = { needs_compliance := "Maybe", reasoning := "No reasoning provided",
          related_regulations := [], confidence := "very high" } :=
  (claim_C7_defaults (fun _ => some ⟨some "Maybe", none, none, some "very high"⟩)
    "x\x7bj\x7dy" "\x7bj\x7d" ⟨some "Maybe", none, none, some "very high"⟩
    (by decide) rfl).trans (by decide)

/-- C9: when the override fires, every field of the final verdict other
than `needs_compliance` and `reasoning` is the same as in the non-override
combination: the input title, the model's regulations and confidence, and
the rule's found keywords. -/
theorem claim_C9_frame (title : String) (rule : RuleVerdict)
    (model : ModelVerdict) (h1 : rule.needs_compliance = true)
    (h2 : rule.confidence = "high") (h3 : model.needs_compliance = "No") :
    (reconcile title rule model).title = title
    ∧ (reconcile title rule model).related_regulations = model.related_regulations
    ∧ (reconcile title rule model).rule_based_keywords = rule.found_keywords
    ∧ (reconcile title rule model).confidence = model.confidence := by
  have hcond : (rule.needs_compliance && rule.confidence == "high"
      && model.needs_compliance == "No") = true := by
    simp [h1, h2, h3]
  refine ⟨?_, ?_, ?_, ?_⟩ <;> simp [reconcile, hcond]

/-- Witness for C9 at a concrete rule/model pair. -/
theorem claim_C9_frame_witness :
    (reconcile "T" ⟨true, [("age_gate", ["minors"])], "high"⟩
        ⟨"No", "r", ["COPPA"], "medium"⟩).title = "T"
    ∧ (reconcile "T" ⟨true, [("age_gate", ["minors"])], "high"⟩
        ⟨"No", "r", ["COPPA"], "medium"⟩).related_regulations = ["COPPA"]
    ∧ (reconcile "T" ⟨true, [("age_gate", ["minors"])], "high"⟩
        ⟨"No", "r", ["COPPA"], "medium"⟩).rule_based_keywords = [("age_gate", ["minors"])]
    ∧ (reconcile "T" ⟨true, [("age_gate", ["minors"])], "high"⟩
        ⟨"No", "r", ["COPPA"], "medium"⟩).confidence = "medium" :=
  claim_C9_frame "T" ⟨true, [("age_gate", ["minors"])], "high"⟩
    ⟨"No", "r", ["COPPA"], "medium"⟩ rfl rfl rfl

/-- C3: the keyword classifier flags compliance exactly when a
high-priority category appears in `found_keywords` (necessarily with a
non-empty match list), and its confidence is "high" exactly when it flags
compliance. -/
theorem claim_C3_rule_verdict (title description documents : String) :
    ((rule_based_analysis title description documents).needs_compliance = true
      ↔ ∃ cat ∈ high_priority_categories, ∃ l,
          (cat, l) ∈ (rule_based_analysis title description documents).found_keywords
          ∧ l ≠ [])
    ∧ ((rule_based_analysis title description documents).confidence = "high"
      ↔ (rule_based_analysis title description documents).needs_compliance = true) := by
  constructor
  · constructor
    · intro h
      simp only [rule_based_analysis, List.any_eq_true, beq_iff_eq] at h
      obtain ⟨cat, hcat, p, hp, rfl⟩ := h
      refine ⟨p.1, hcat, p.2, ?_, ?_⟩
      · exact hp
      · exact @found_keywords_ne_nil title description documents p.1 p.2 hp
    · rintro ⟨cat, hcat, l, hmem, -⟩
      simp only [rule_based_analysis, List.any_eq_true, beq_iff_eq]
      exact ⟨cat, hcat, (cat, l), hmem, rfl⟩
  · have hc : (rule_based_analysis title description documents).confidence
        = if (rule_based_analysis title description documents).needs_compliance
          then "high" else "low" := rfl
    rw [hc]
    cases hb : (rule_based_analysis title description documents).needs_compliance <;>
      simp [hb]

/-- Witness for C3 at the concrete age-verification scenario. -/
theorem claim_C3_rule_verdict_witness :
    ((rule_based_analysis "Age Verification System"
        "Implement age gates for users under 18" "").needs_compliance = true
      ↔ ∃ cat ∈ high_priority_categories, ∃ l,
          (cat, l) ∈ (rule_based_analysis "Age Verification System"
            "Implement age gates for users under 18" "").found_keywords
          ∧ l ≠ [])
    ∧ ((rule_based_analysis "Age Verification System"
        "Implement age gates for users under 18" "").confidence = "high"
      ↔ (rule_based_analysis "Age Verification System"
        "Implement age gates for users under 18" "").needs_compliance = true) :=
  claim_C3_rule_verdict "Age Verification System"
    "Implement age gates for users under 18" ""

/-- C4: the parser is total, and on both failure paths it degrades to the
"Needs Review" / "low" fallback: when no brace span exists the reasoning is
the raw text verbatim, and when the extracted span fails to decode the
reasoning wraps the raw text in a failed-to-parse message. -/
theorem claim_C4_parser_fallback (decode : String → Option JsonDict)
    (response : String) :
    (extractJsonSpan response = none →
      parse_llm_response decode response
        = { needs_compliance := "Needs Review", reasoning := response,
            related_regulations := [], confidence := "low" })
    ∧ (∀ span, extractJsonSpan response = some span → decode span = none →
      parse_llm_response decode response
        = { needs_compliance := "Needs Review",
            reasoning := "Failed to parse response: " ++ response,
            related_regulations := [], confidence := "low" }) := by
  constructor
  · intro h
    simp [parse_llm_response, h]
  · intro span h1 h2
    simp [parse_llm_response, h1, h2]

/-- Witness for C4 on both failure paths, at concrete inputs. -/
theorem claim_C4_parser_fallback_witness :
    parse_llm_response (fun _ => none) "no json here"
      = { needs_compliance := "Needs Review", reasoning := "no json here",
          related_regulations := [], confidence := "low" }
    ∧ parse_llm_response (fun _ => none) "x \x7bbad\x7d y"
      = { needs_compliance := "Needs Review",
          reasoning := "Failed to parse response: x \x7bbad\x7d y",
          related_regulations := [], confidence := "low" } :=
  ⟨(claim_C4_parser_fallback (fun _ => none) "no json here").1 (by decide),
   (claim_C4_parser_fallback (fun _ => none) "x \x7bbad\x7d y").2
     "\x7bbad\x7d" (by decide) rfl⟩

/-- C10: keyword matching runs over the space-joined lower-cased
concatenation of the three fields, so the phrase "age gate" — contained in
none of the fields "age", "gate", "" individually — still matches across
the title/description boundary and flags the feature. -/
theorem claim_C10_boundary_match :
    (rule_based_analysis "age" "gate" "").needs_compliance = true
    ∧ ("age_gate", ["age gate"]) ∈ (rule_based_analysis "age" "gate" "").found_keywords
    ∧ containsSubstr (toLowerStr "age") "age gate" = false
    ∧ containsSubstr (toLowerStr "gate") "age gate" = false
    ∧ containsSubstr (toLowerStr "") "age gate" = false
    ∧ containsSubstr (toLowerStr ("age" ++ " " ++ "gate" ++ " " ++ "")) "age gate" = true := by
  decide

/-- C8: the batch entry point validates columns before iterating: with
either required column absent it fails with a validation error whose
message names each missing column and produces no output; with both
present it returns the row-by-row analysis. -/
theorem claim_C8_column_validation (extractPdf : String → String)
    (svc : String → Except String String) (decode : String → Option JsonDict)
    (df : Table) :
    (("Title" ∉ df.columns ∨ "Description" ∉ df.columns) →
      ∃ msg, analyze_csv extractPdf svc decode df = Except.error msg
        ∧ ("Title" ∉ df.columns → ∃ a b, msg = a ++ "Title" ++ b)
        ∧ ("Description" ∉ df.columns → ∃ a b, msg = a ++ "Description" ++ b))
    ∧ ("Title" ∈ df.columns → "Description" ∈ df.columns →
      analyze_csv extractPdf svc decode df
        = Except.ok (df.rows.filterMap (fun row =>
            if (stripStr row.Title).data.isEmpty
                || (stripStr row.Description).data.isEmpty then none
            else some (analyze_feature extractPdf svc decode (stripStr row.Title)
              (stripStr row.Description) (stripStr row.Documents))))) := by
  by_cases hT : "Title" ∈ df.columns <;> by_cases hD : "Description" ∈ df.columns
  · constructor
    · rintro (h | h)
      · exact absurd hT h
      · exact absurd hD h
    · intro _ _
      simp [analyze_csv, hT, hD]
  · constructor
    · intro _
      refine ⟨"Missing required columns: " ++ pyReprStrList ["Description"],
        by simp [analyze_csv, hT, hD], fun h => absurd hT h, fun _ => ?_⟩
      exact ⟨"Missing required columns: ['", "']", by decide⟩
    · intro _ hD'
      exact absurd hD' hD
  · constructor
    · intro _
      refine ⟨"Missing required columns: " ++ pyReprStrList ["Title"],
        by simp [analyze_csv, hT, hD], fun _ => ?_, fun h => ?_⟩
      · exact ⟨"Missing required columns: ['", "']", by decide⟩
      · exact absurd hD h
    · intro hT' _
      exact absurd hT' hT
  · constructor
    · intro _
      refine ⟨"Missing required columns: " ++ pyReprStrList ["Title", "Description"],
        by simp [analyze_csv, hT, hD], fun _ => ?_, fun _ => ?_⟩
      · exact ⟨"Missing required columns: ['", "', 'Description']", by decide⟩
      · exact ⟨"Missing required columns: ['Title', '", "']", by decide⟩
    · intro hT' _
      exact absurd hT' hT

/-- Witness for C8: a table with columns `Title, WrongColumn` fails naming
`Description`, and a two-column table with one row succeeds. -/
theorem claim_C8_column_validation_witness :
    (∃ msg, analyze_csv (fun _ => "") (fun _ => Except.error "down") (fun _ => none)
        (Table.mk ["Title", "WrongColumn"] [Row.mk "t" "d" ""]) = Except.error msg
      ∧ ("Title" ∉ (["Title", "WrongColumn"] : List String) → ∃ a b, msg = a ++ "Title" ++ b)
      ∧ ("Description" ∉ (["Title", "WrongColumn"] : List String) →
          ∃ a b, msg = a ++ "Description" ++ b))
    ∧ analyze_csv (fun _ => "") (fun _ => Except.error "down") (fun _ => none)
        (Table.mk ["Title", "Description"] []) = Except.ok [] :=
  ⟨(claim_C8_column_validation (fun _ => "") (fun _ => Except.error "down")
      (fun _ => none) (Table.mk ["Title", "WrongColumn"] [Row.mk "t" "d" ""])).1
      (Or.inr (by decide)),
   (claim_C8_column_validation (fun _ => "") (fun _ => Except.error "down")
      (fun _ => none) (Table.mk ["Title", "Description"] [])).2
      (by decide) (by decide)⟩

end Compliance
